import Mathlib

/-!
# A shallow embedding of the Nova recursive-SNARK driver (arecibo, src/lib.rs)

This development embeds the IVC driver of the library: `PublicParams`
(`setup`, the lazily cached `digest`), `RecursiveSNARK` (`new`, `prove_step`,
`verify`) and `CompressedSNARK` (`prove`), together with the data model
(`R1CSInstance`, `R1CSWitness`, `RelaxedR1CSInstance`, `RelaxedR1CSWitness`).

The driver code of `src/lib.rs` is translated directly.  The external
collaborators the driver calls into (augmented-circuit synthesis, NIFS
folding, R1CS satisfiability checks, the random-oracle hashes, commitment
decompression, the compressing SNARK provers, and the parameter digest) live
in private modules / other crates that are not part of the source under
analysis; they are modelled from the specification as an explicit record of
operations (`Ops`) that the driver functions take as a parameter.  Theorems
about driver control flow quantify over every such record; the end-to-end
IVC theorems additionally assume the contracts the specification promises of
the collaborators (the `Honest` predicate).

Rust `Result<T, NovaError>` is embedded as `Except NovaError T`; a Rust
panic (`expect` / `assert!`), which aborts instead of returning, is embedded
as the extra outcome `abort` of `NewOutcome` / `StepResult`.  In-place
mutation of the `RecursiveSNARK` by `prove_step` is embedded by explicit
state passing: the result carries the state as it stands when the function
returns, including the partially updated state at an error return.
-/

/-- The error kinds of `errors.rs` that `src/lib.rs` mentions
(spec section 6, "Error kinds exposed"). -/
inductive NovaError where
  | InvalidInitialInputLength
  | SynthesisError
  | UnSat
  | InvalidCommitment
  | ProofVerifyError
deriving DecidableEq

/-- An R1CS instance: a commitment to the witness and the public I/O `X`
(spec section 3). `Comm` is the opaque commitment type, `F` the field. -/
structure R1CSInstance (Comm F : Type) where
  comm_W : Comm
  X : List F
deriving DecidableEq

/-- An R1CS witness (spec section 3). -/
structure R1CSWitness (F : Type) where
  W : List F
deriving DecidableEq

/-- A relaxed R1CS instance `(W̄, E̅, u, X)` (spec section 3). -/
structure RelaxedR1CSInstance (Comm F : Type) where
  comm_W : Comm
  comm_E : Comm
  u : F
  X : List F
deriving DecidableEq

/-- A relaxed R1CS witness `(W, E)` (spec section 3). -/
structure RelaxedR1CSWitness (F : Type) where
  W : List F
  E : List F
deriving DecidableEq

/-- Modelled from the spec: `RelaxedR1CSWitness::from_r1cs_witness` of
`r1cs.rs` (not under src/), spec section 4.1 — lift a plain witness with
`E = 0^m` where `m` is the shape's constraint count. -/
def RelaxedR1CSWitness.from_r1cs_witness {F : Type} (num_cons : Nat) (zero : F)
    (w : R1CSWitness F) : RelaxedR1CSWitness F :=
  { W := w.W, E := List.replicate num_cons zero }

/-- Modelled from the spec: `RelaxedR1CSInstance::from_r1cs_instance` of
`r1cs.rs` (not under src/), spec section 4.1 — lift with `u = 1`,
`E̅ = commit(ck, 0)`. -/
def RelaxedR1CSInstance.from_r1cs_instance {Comm F : Type} (comm_zero : Comm) (one : F)
    (u : R1CSInstance Comm F) : RelaxedR1CSInstance Comm F :=
  { comm_W := u.comm_W, comm_E := comm_zero, u := one, X := u.X }

/-- Modelled from the spec: the all-zero default relaxed witness of
`r1cs.rs` (not under src/), spec section 4.1, for a shape with `num_cons`
constraints and `num_vars` variables. -/
def RelaxedR1CSWitness.default {F : Type} (num_cons num_vars : Nat) (zero : F) :
    RelaxedR1CSWitness F :=
  { W := List.replicate num_vars zero, E := List.replicate num_cons zero }

/-- Modelled from the spec: the all-zero default relaxed instance of
`r1cs.rs` (not under src/), spec section 4.1; augmented-circuit shapes have
`num_io = 2` (spec section 3). -/
def RelaxedR1CSInstance.default {Comm F : Type} (comm_zero : Comm) (zero : F)
    (num_io : Nat) : RelaxedR1CSInstance Comm F :=
  { comm_W := comm_zero, comm_E := comm_zero, u := zero, X := List.replicate num_io zero }

/-- The private inputs of the augmented circuit, `NovaAugmentedCircuitInputs`
of `circuit.rs` (spec section 4.3): for the side whose circuit field is
`Fown`, the opposite side has field `Fopp` and commitment type `Copp`.  The
`params` digest travels as a scalar of the opposite side (in the code,
`NovaAugmentedCircuitInputs<E>` has `params : E::Scalar`). -/
structure NovaAugmentedCircuitInputs (Fown Fopp Copp : Type) where
  params : Fopp
  i : Fown
  z0 : List Fown
  zi : Option (List Fown)
  U : Option (RelaxedR1CSInstance Copp Fopp)
  u : Option (R1CSInstance Copp Fopp)
  T : Option Copp
deriving DecidableEq

/-- The record of external operations the driver of `src/lib.rs` calls.
Every field is code of this repository or its dependencies that is not under
src/ (private modules `circuit`, `nifs`, `digest`, `bellpepper` and public
modules `r1cs`, `gadgets`, `provider`, `spartan`, `traits`); each is
modelled from the spec as an opaque function of the indicated signature.
The commitment key, the R1CS shapes, the RO constants and the compressing
SNARK keys — fixed for one `PublicParams` — are baked into the record.

Type parameters: `F1`/`F2` the primary/secondary scalar fields, `Comm1`/
`Comm2` the commitment types, `T1`/`T2` the compressed cross-term commitment
types carried by a `NIFS` proof, `S1`/`S2` the compressing SNARK proof
types, `Content` the digestible content of the public parameters. -/
structure Ops (F1 F2 Comm1 Comm2 T1 T2 S1 S2 Content : Type) where
  /-- Modelled from the spec: `DigestComputer` of `digest.rs` (not under
  src/), spec section 4.4 — a deterministic hash of the parameter content. -/
  digest_of : Content → F1
  /-- Modelled from the spec: `scalar_as_base::<E1>` of `gadgets` (not under
  src/) — reinterpret a primary scalar in the secondary field. -/
  sab1 : F1 → F2
  /-- Modelled from the spec: `scalar_as_base::<E2>` — reinterpret a
  secondary scalar in the primary field. -/
  sab2 : F2 → F1
  /-- `E1::Scalar::from(n as u64)`. -/
  ofNat1 : Nat → F1
  /-- `E2::Scalar::from(n as u64)`. -/
  ofNat2 : Nat → F2
  /-- Field addition on `F1` (used in-circuit to form `i + 1`). -/
  add1 : F1 → F1 → F1
  /-- Field addition on `F2`. -/
  add2 : F2 → F2 → F2
  /-- Modelled from the spec: the secondary-RO hash of `verify` (spec
  sections 3 and 4.5) — absorb `(digest, num_steps, z0_primary, zi_primary,
  r_U_secondary)` into `E2::RO` seeded with `ro_consts_secondary` and
  squeeze `NUM_HASH_BITS`. -/
  h_sec : F1 → F1 → List F1 → List F1 → RelaxedR1CSInstance Comm2 F2 → F2
  /-- Modelled from the spec: the primary-RO hash — absorb
  `(scalar_as_base digest, num_steps, z0_secondary, zi_secondary,
  r_U_primary)` into `E1::RO` and squeeze. -/
  h_prim : F2 → F2 → List F2 → List F2 → RelaxedR1CSInstance Comm1 F1 → F1
  /-- Modelled from the spec: synthesis of the primary augmented circuit
  (`NovaAugmentedCircuit::synthesize`, `circuit.rs`, not under src/),
  returning the allocated `z_{i+1}` values (each allocation may be missing a
  value); `none` is a `SynthesisError`. -/
  synth_primary : NovaAugmentedCircuitInputs F1 F2 Comm2 → Option (List (Option F1))
  /-- Modelled from the spec: `r1cs_instance_and_witness` extraction for the
  primary circuit (`bellpepper`, not under src/); synthesis is deterministic
  (spec section 4.3), so the extracted pair is a function of the inputs. -/
  extract_primary : NovaAugmentedCircuitInputs F1 F2 Comm2 →
    Option (R1CSInstance Comm1 F1 × R1CSWitness F1)
  /-- Modelled from the spec: synthesis of the secondary augmented circuit. -/
  synth_secondary : NovaAugmentedCircuitInputs F2 F1 Comm1 → Option (List (Option F2))
  /-- Modelled from the spec: extraction for the secondary circuit. -/
  extract_secondary : NovaAugmentedCircuitInputs F2 F1 Comm1 →
    Option (R1CSInstance Comm2 F2 × R1CSWitness F2)
  /-- Modelled from the spec: `NIFS::prove_mut` on the primary side
  (`nifs.rs`, not under src/), spec section 4.2 — fold a plain pair into the
  running relaxed pair, returning the folded pair and the compressed
  cross-term commitment `T̄` carried by the `NIFS` proof. -/
  fold_primary : RelaxedR1CSInstance Comm1 F1 → RelaxedR1CSWitness F1 →
    R1CSInstance Comm1 F1 → R1CSWitness F1 →
    Option (RelaxedR1CSInstance Comm1 F1 × RelaxedR1CSWitness F1 × T1)
  /-- Modelled from the spec: `NIFS::prove_mut` on the secondary side. -/
  fold_secondary : RelaxedR1CSInstance Comm2 F2 → RelaxedR1CSWitness F2 →
    R1CSInstance Comm2 F2 → R1CSWitness F2 →
    Option (RelaxedR1CSInstance Comm2 F2 × RelaxedR1CSWitness F2 × T2)
  /-- Modelled from the spec: the out-of-place `NIFS::prove` on the
  secondary side used by `CompressedSNARK::prove`; its public contract is
  identical to the in-place variant (spec section 4.2). -/
  nifs_prove_secondary : RelaxedR1CSInstance Comm2 F2 → RelaxedR1CSWitness F2 →
    R1CSInstance Comm2 F2 → R1CSWitness F2 →
    Except NovaError (RelaxedR1CSInstance Comm2 F2 × RelaxedR1CSWitness F2 × T2)
  /-- Modelled from the spec: the instance-only fold `NIFS.verify` computes
  (spec section 4.2, steps 2-4), re-enacted in-circuit by the opposite
  augmented circuit. -/
  fold_inst_primary : RelaxedR1CSInstance Comm1 F1 → R1CSInstance Comm1 F1 → Comm1 →
    RelaxedR1CSInstance Comm1 F1
  /-- Modelled from the spec: the instance-only fold on the secondary side. -/
  fold_inst_secondary : RelaxedR1CSInstance Comm2 F2 → R1CSInstance Comm2 F2 → Comm2 →
    RelaxedR1CSInstance Comm2 F2
  /-- Modelled from the spec: `Commitment::<E1>::decompress` (spec section
  4.2); `none` is an `InvalidCommitment`. -/
  decompress1 : T1 → Option Comm1
  /-- Modelled from the spec: `Commitment::<E2>::decompress`. -/
  decompress2 : T2 → Option Comm2
  /-- Modelled from the spec: `shape.is_sat` on the primary shape (spec
  section 4.1). -/
  is_sat_primary : R1CSInstance Comm1 F1 → R1CSWitness F1 → Bool
  /-- Modelled from the spec: `shape.is_sat` on the secondary shape. -/
  is_sat_secondary : R1CSInstance Comm2 F2 → R1CSWitness F2 → Bool
  /-- Modelled from the spec: `shape.is_sat_relaxed` on the primary shape. -/
  is_sat_relaxed_primary : RelaxedR1CSInstance Comm1 F1 → RelaxedR1CSWitness F1 → Bool
  /-- Modelled from the spec: `shape.is_sat_relaxed` on the secondary shape. -/
  is_sat_relaxed_secondary : RelaxedR1CSInstance Comm2 F2 → RelaxedR1CSWitness F2 → Bool
  /-- `commit(ck_primary, 0)`, the commitment to the zero vector. -/
  comm_zero1 : Comm1
  /-- `commit(ck_secondary, 0)`. -/
  comm_zero2 : Comm2
  /-- Constraint count of the primary augmented shape. -/
  num_cons_primary : Nat
  /-- Constraint count of the secondary augmented shape. -/
  num_cons_secondary : Nat
  /-- Variable count of the primary augmented shape. -/
  num_vars_primary : Nat
  /-- Variable count of the secondary augmented shape. -/
  num_vars_secondary : Nat
  /-- Modelled from the spec: `S1::prove` of the primary compressing SNARK
  (spec section 6, `RelaxedR1CSSNARK`), with `ck`, `pk` and the shape baked
  in. -/
  snark_prove_primary : RelaxedR1CSInstance Comm1 F1 → RelaxedR1CSWitness F1 →
    Except NovaError S1
  /-- Modelled from the spec: `S2::prove` of the secondary compressing
  SNARK. -/
  snark_prove_secondary : RelaxedR1CSInstance Comm2 F2 → RelaxedR1CSWitness F2 →
    Except NovaError S2

/-- `PublicParams` of `src/lib.rs`, reduced to the fields the driver reads:
the two step-circuit arities, the digestible content (shapes, commitment
keys, RO constants, augmented-circuit parameters — opaque here, their uses
being baked into `Ops`), and the `OnceCell` digest cache. -/
structure PublicParams (F1 Content : Type) where
  F_arity_primary : Nat
  F_arity_secondary : Nat
  content : Content
  digest : Option F1
deriving DecidableEq

/-- `PublicParams::setup` of `src/lib.rs`: assemble the parameters from the
(deterministic, spec section 4.3) shape synthesis of both augmented circuits
— abstracted into `F_arity`s and `content` — and an empty digest cell
(`digest: OnceCell::new()`). -/
def PublicParams.setup {F1 Content : Type} (F_arity_primary F_arity_secondary : Nat)
    (content : Content) : PublicParams F1 Content :=
  { F_arity_primary := F_arity_primary, F_arity_secondary := F_arity_secondary,
    content := content, digest := none }

/-- `PublicParams::digest` of `src/lib.rs`:
`self.digest.get_or_try_init(|| DigestComputer::new(self).digest())` —
return the cached scalar, or compute, cache and return it.  The returned
pair is (value, parameters after the call). -/
def PublicParams.digestRun {F1 F2 Comm1 Comm2 T1 T2 S1 S2 Content : Type}
    (ops : Ops F1 F2 Comm1 Comm2 T1 T2 S1 S2 Content)
    (pp : PublicParams F1 Content) : F1 × PublicParams F1 Content :=
  match pp.digest with
  | some d => (d, pp)
  | none =>
    let d := ops.digest_of pp.content
    (d, { pp with digest := some d })

/-- The value `pp.digest()` returns (the cache if filled, else the computed
digest); driver functions read the digest through this. -/
def PublicParams.digestVal {F1 F2 Comm1 Comm2 T1 T2 S1 S2 Content : Type}
    (ops : Ops F1 F2 Comm1 Comm2 T1 T2 S1 S2 Content)
    (pp : PublicParams F1 Content) : F1 :=
  pp.digest.getD (ops.digest_of pp.content)

/-- `RecursiveSNARK` of `src/lib.rs`, without the two `ResourceBuffer`s
(pure scratch memory — `ABC_Z` buffers, `T` buffer, MSM and sparse-matrix
contexts — reused across steps and observationally irrelevant, spec
sections 5 and 9). -/
structure RecursiveSNARK (F1 F2 Comm1 Comm2 : Type) where
  z0_primary : List F1
  z0_secondary : List F2
  r_W_primary : RelaxedR1CSWitness F1
  r_U_primary : RelaxedR1CSInstance Comm1 F1
  r_W_secondary : RelaxedR1CSWitness F2
  r_U_secondary : RelaxedR1CSInstance Comm2 F2
  l_w_secondary : R1CSWitness F2
  l_u_secondary : R1CSInstance Comm2 F2
  i : Nat
  zi_primary : List F1
  zi_secondary : List F2
deriving DecidableEq

/-- Outcome of `RecursiveSNARK::new`: a returned `Ok`, a returned `Err`, or
a Rust panic (`expect` / `assert!`), which never returns. -/
inductive NewOutcome (F1 F2 Comm1 Comm2 : Type) where
  | ok (s : RecursiveSNARK F1 F2 Comm1 Comm2)
  | err (e : NovaError)
  | abort
deriving DecidableEq

/-- Outcome of `RecursiveSNARK::prove_step` on `&mut self`: `ok s` and
`err e s` carry the state of the `RecursiveSNARK` when the call returns
(possibly partially updated, since `NIFS::prove_mut` folds in place);
`abort` is a Rust panic. -/
inductive StepResult (F1 F2 Comm1 Comm2 : Type) where
  | ok (s : RecursiveSNARK F1 F2 Comm1 Comm2)
  | err (e : NovaError) (s : RecursiveSNARK F1 F2 Comm1 Comm2)
  | abort
deriving DecidableEq

/-- `.iter().map(|v| v.get_value().ok_or(NovaError::SynthesisError)).collect::<Result<Vec<_>, _>>()`
over the allocated output values. -/
def collectValues {F : Type} : List (Option F) → Option (List F)
  | [] => some []
  | none :: _ => none
  | some x :: rest =>
    match collectValues rest with
    | none => none
    | some xs => some (x :: xs)

section Driver

variable {F1 F2 Comm1 Comm2 T1 T2 S1 S2 Content : Type}

/-- `RecursiveSNARK::new` of `src/lib.rs` (lines 337-521): the arity check,
the two base-case syntheses and extractions, the lifts of the primary pair,
the zero secondary running pair, the `assert!` on output lengths, and the
collection of the output values.  The `.expect(..)` sites of the code are
`abort`; only the initial arity check returns an error.  (The code also
fills the scratch buffers via `multiply_witness_into`, spec section 4.1 — a
pure scratch computation with no failure mode in the spec, omitted with the
buffers.) -/
def RecursiveSNARK.new (ops : Ops F1 F2 Comm1 Comm2 T1 T2 S1 S2 Content)
    (pp : PublicParams F1 Content)
    (z0_primary : List F1) (z0_secondary : List F2) :
    NewOutcome F1 F2 Comm1 Comm2 :=
  if z0_primary.length ≠ pp.F_arity_primary ∨ z0_secondary.length ≠ pp.F_arity_secondary then
    .err .InvalidInitialInputLength
  else
    -- base case for the primary
    let inputs_primary : NovaAugmentedCircuitInputs F1 F2 Comm2 :=
      { params := ops.sab1 (pp.digestVal ops), i := ops.ofNat1 0, z0 := z0_primary,
        zi := none, U := none, u := none, T := none }
    match ops.synth_primary inputs_primary with
    | none => .abort
    | some zi_primary_alloc =>
      match ops.extract_primary inputs_primary with
      | none => .abort
      | some (u_primary, w_primary) =>
        -- base case for the secondary
        let inputs_secondary : NovaAugmentedCircuitInputs F2 F1 Comm1 :=
          { params := pp.digestVal ops, i := ops.ofNat2 0, z0 := z0_secondary,
            zi := none, U := none, u := some u_primary, T := none }
        match ops.synth_secondary inputs_secondary with
        | none => .abort
        | some zi_secondary_alloc =>
          match ops.extract_secondary inputs_secondary with
          | none => .abort
          | some (u_secondary, w_secondary) =>
            let r_W_primary :=
              RelaxedR1CSWitness.from_r1cs_witness ops.num_cons_primary (ops.ofNat1 0) w_primary
            let r_U_primary :=
              RelaxedR1CSInstance.from_r1cs_instance ops.comm_zero1 (ops.ofNat1 1) u_primary
            let r_W_secondary :=
              RelaxedR1CSWitness.default ops.num_cons_secondary ops.num_vars_secondary
                (ops.ofNat2 0)
            let r_U_secondary :=
              RelaxedR1CSInstance.default ops.comm_zero2 (ops.ofNat2 0) 2
            if zi_primary_alloc.length ≠ pp.F_arity_primary ∨
                zi_secondary_alloc.length ≠ pp.F_arity_secondary then
              .abort
            else
              match collectValues zi_primary_alloc with
              | none => .abort
              | some zi_primary =>
                match collectValues zi_secondary_alloc with
                | none => .abort
                | some zi_secondary =>
                  .ok { z0_primary := z0_primary
                        z0_secondary := z0_secondary
                        r_W_primary := r_W_primary
                        r_U_primary := r_U_primary
                        r_W_secondary := r_W_secondary
                        r_U_secondary := r_U_secondary
                        l_w_secondary := w_secondary
                        l_u_secondary := u_secondary
                        i := 0
                        zi_primary := zi_primary
                        zi_secondary := zi_secondary }

/-- `RecursiveSNARK::prove_step` of `src/lib.rs` (lines 526-651).  The
mutations happen in code order: the secondary `NIFS::prove_mut` updates
`r_U_secondary`/`r_W_secondary` before the cross-term decompression and the
primary synthesis can return an error; the primary `NIFS::prove_mut` updates
`r_U_primary`/`r_W_primary` before the second decompression, the secondary
synthesis, the secondary extraction and the output-value collections can;
`zi_primary` is assigned before the `zi_secondary` collection can fail.  The
two `NIFS::prove_mut` `.expect`s and the primary extraction `.expect` are
`abort`. -/
def RecursiveSNARK.prove_step (ops : Ops F1 F2 Comm1 Comm2 T1 T2 S1 S2 Content)
    (pp : PublicParams F1 Content)
    (self : RecursiveSNARK F1 F2 Comm1 Comm2) :
    StepResult F1 F2 Comm1 Comm2 :=
  -- first step was already done in the constructor
  if self.i = 0 then
    .ok { self with i := 1 }
  else
    -- save the inputs before proceeding to the i+1-th step
    let r_U_primary_i := self.r_U_primary
    let r_U_secondary_i := self.r_U_secondary
    let l_u_secondary_i := self.l_u_secondary
    -- fold the secondary circuit's instance (in place)
    match ops.fold_secondary self.r_U_secondary self.r_W_secondary
        self.l_u_secondary self.l_w_secondary with
    | none => .abort
    | some (r_U_sec, r_W_sec, comm_T_sec) =>
      let s1 := { self with r_U_secondary := r_U_sec, r_W_secondary := r_W_sec }
      match ops.decompress2 comm_T_sec with
      | none => .err .InvalidCommitment s1
      | some T_sec =>
        let inputs_primary : NovaAugmentedCircuitInputs F1 F2 Comm2 :=
          { params := ops.sab1 (pp.digestVal ops), i := ops.ofNat1 s1.i,
            z0 := s1.z0_primary, zi := some s1.zi_primary,
            U := some r_U_secondary_i, u := some l_u_secondary_i, T := some T_sec }
        match ops.synth_primary inputs_primary with
        | none => .err .SynthesisError s1
        | some zi_primary_alloc =>
          match ops.extract_primary inputs_primary with
          | none => .abort
          | some (l_u_primary, l_w_primary) =>
            -- fold the primary circuit's instance (in place)
            match ops.fold_primary s1.r_U_primary s1.r_W_primary
                l_u_primary l_w_primary with
            | none => .abort
            | some (r_U_prim, r_W_prim, comm_T_prim) =>
              let s2 := { s1 with r_U_primary := r_U_prim, r_W_primary := r_W_prim }
              match ops.decompress1 comm_T_prim with
              | none => .err .InvalidCommitment s2
              | some T_prim =>
                let inputs_secondary : NovaAugmentedCircuitInputs F2 F1 Comm1 :=
                  { params := pp.digestVal ops, i := ops.ofNat2 s2.i,
                    z0 := s2.z0_secondary, zi := some s2.zi_secondary,
                    U := some r_U_primary_i, u := some l_u_primary, T := some T_prim }
                match ops.synth_secondary inputs_secondary with
                | none => .err .SynthesisError s2
                | some zi_secondary_alloc =>
                  match ops.extract_secondary inputs_secondary with
                  | none => .err .UnSat s2
                  | some (l_u_secondary, l_w_secondary) =>
                    match collectValues zi_primary_alloc with
                    | none => .err .SynthesisError s2
                    | some zi_primary =>
                      let s3 := { s2 with zi_primary := zi_primary }
                      match collectValues zi_secondary_alloc with
                      | none => .err .SynthesisError s3
                      | some zi_secondary =>
                        .ok { s3 with
                              zi_secondary := zi_secondary
                              l_u_secondary := l_u_secondary
                              l_w_secondary := l_w_secondary
                              i := s3.i + 1 }

/-- Iterate `prove_step` `k` times, stopping at the first non-`ok` result. -/
def RecursiveSNARK.proveSteps (ops : Ops F1 F2 Comm1 Comm2 T1 T2 S1 S2 Content)
    (pp : PublicParams F1 Content) :
    Nat → RecursiveSNARK F1 F2 Comm1 Comm2 → StepResult F1 F2 Comm1 Comm2
  | 0, s => .ok s
  | k + 1, s =>
    match RecursiveSNARK.prove_step ops pp s with
    | .ok s => RecursiveSNARK.proveSteps ops pp k s
    | r => r

/-- `RecursiveSNARK::verify` of `src/lib.rs` (lines 654-760): the four
reject conditions, the two recomputed hashes checked against
`l_u_secondary.X`, and the three satisfiability checks (the code issues the
latter to a parallel pool and then propagates primary, relaxed-secondary,
plain-secondary in that order). -/
def RecursiveSNARK.verify [DecidableEq F1] [DecidableEq F2]
    (ops : Ops F1 F2 Comm1 Comm2 T1 T2 S1 S2 Content)
    (pp : PublicParams F1 Content) (num_steps : Nat)
    (z0_primary : List F1) (z0_secondary : List F2)
    (self : RecursiveSNARK F1 F2 Comm1 Comm2) :
    Except NovaError (List F1 × List F2) :=
  -- number of steps cannot be zero, the counter must match, the initial
  -- inputs must match, and the instances must have two public outputs
  if num_steps = 0 ∨ self.i ≠ num_steps ∨
      (self.z0_primary ≠ z0_primary ∨ self.z0_secondary ≠ z0_secondary) ∨
      (self.l_u_secondary.X.length ≠ 2 ∨ self.r_U_primary.X.length ≠ 2 ∨
        self.r_U_secondary.X.length ≠ 2) then
    .error .ProofVerifyError
  else
    -- check if the output hashes in the R1CS instances point to the right
    -- running instances
    let hash_primary := ops.h_sec (pp.digestVal ops) (ops.ofNat1 num_steps)
      z0_primary self.zi_primary self.r_U_secondary
    let hash_secondary := ops.h_prim (ops.sab1 (pp.digestVal ops)) (ops.ofNat2 num_steps)
      z0_secondary self.zi_secondary self.r_U_primary
    if hash_primary ≠ self.l_u_secondary.X.getD 0 (ops.ofNat2 0) ∨
        hash_secondary ≠ ops.sab2 (self.l_u_secondary.X.getD 1 (ops.ofNat2 0)) then
      .error .ProofVerifyError
    else
      -- check the satisfiability of the provided instances
      if ops.is_sat_relaxed_primary self.r_U_primary self.r_W_primary = false then
        .error .UnSat
      else if ops.is_sat_relaxed_secondary self.r_U_secondary self.r_W_secondary = false then
        .error .UnSat
      else if ops.is_sat_secondary self.l_u_secondary self.l_w_secondary = false then
        .error .UnSat
      else
        .ok (self.zi_primary, self.zi_secondary)

end Driver

/-- `CompressedSNARK` of `src/lib.rs`: the two running instances, the
pending plain secondary instance, the secondary `NIFS` proof (its compressed
cross-term commitment), the two compressing SNARK proofs and the final
outputs. -/
structure CompressedSNARK (F1 F2 Comm1 Comm2 T2 S1 S2 : Type) where
  r_U_primary : RelaxedR1CSInstance Comm1 F1
  r_W_snark_primary : S1
  r_U_secondary : RelaxedR1CSInstance Comm2 F2
  l_u_secondary : R1CSInstance Comm2 F2
  nifs_secondary : T2
  f_W_snark_secondary : S2
  zn_primary : List F1
  zn_secondary : List F2
deriving DecidableEq

section Compressed

variable {F1 F2 Comm1 Comm2 T1 T2 S1 S2 Content : Type}

/-- `CompressedSNARK::prove` of `src/lib.rs` (lines 985-1038): fold the
pending plain secondary pair into the running secondary pair with the
out-of-place `NIFS::prove`, run both compressing SNARK provers (the code
runs them in a `rayon::join` and then propagates the primary error first),
and assemble the proof from clones of the recursive SNARK's fields.  `pk`,
`ck` and the shapes are baked into `ops`.  The borrowed `&recursive_snark`
is returned alongside the result: the borrow is immutable, so it is the
unchanged input. -/
def CompressedSNARK.prove (ops : Ops F1 F2 Comm1 Comm2 T1 T2 S1 S2 Content)
    (recursive_snark : RecursiveSNARK F1 F2 Comm1 Comm2) :
    Except NovaError (CompressedSNARK F1 F2 Comm1 Comm2 T2 S1 S2) ×
      RecursiveSNARK F1 F2 Comm1 Comm2 :=
  let res : Except NovaError (CompressedSNARK F1 F2 Comm1 Comm2 T2 S1 S2) :=
    -- fold the secondary circuit's instance with its running instance
    match ops.nifs_prove_secondary recursive_snark.r_U_secondary
        recursive_snark.r_W_secondary recursive_snark.l_u_secondary
        recursive_snark.l_w_secondary with
    | .error e => .error e
    | .ok (f_U_secondary, f_W_secondary, nifs_secondary) =>
      -- create SNARKs proving the knowledge of f_W_primary and f_W_secondary
      let r_W_snark_primary := ops.snark_prove_primary
        recursive_snark.r_U_primary recursive_snark.r_W_primary
      let f_W_snark_secondary := ops.snark_prove_secondary
        f_U_secondary f_W_secondary
      match r_W_snark_primary with
      | .error e => .error e
      | .ok p1 =>
        match f_W_snark_secondary with
        | .error e => .error e
        | .ok p2 =>
          .ok { r_U_primary := recursive_snark.r_U_primary
                r_W_snark_primary := p1
                r_U_secondary := recursive_snark.r_U_secondary
                l_u_secondary := recursive_snark.l_u_secondary
                nifs_secondary := nifs_secondary
                f_W_snark_secondary := p2
                zn_primary := recursive_snark.zi_primary
                zn_secondary := recursive_snark.zi_secondary }
  (res, recursive_snark)

end Compressed

/-- Direct iteration of a step function: `iterF f k z` applies `f` to `z`
`k` times (the reference computation a `RecursiveSNARK` proof attests to). -/
def iterF {α : Type} (f : α → α) : Nat → α → α
  | 0, z => z
  | k + 1, z => f (iterF f k z)

section Contracts

variable {F1 F2 Comm1 Comm2 T1 T2 S1 S2 Content : Type}

/-- Modelled from the spec: the running instance the primary augmented
circuit hashes into its second output (spec section 4.3).  On a step input
(`U`, `u`, `T̄` present) it is the in-circuit `NIFS.verify` fold of the
secondary side; at the base (all absent, as the constructor passes them) it
is the default relaxed instance. -/
def primaryFoldedU
    (fold_inst : RelaxedR1CSInstance Comm2 F2 → R1CSInstance Comm2 F2 → Comm2 →
      RelaxedR1CSInstance Comm2 F2)
    (comm_zero2 : Comm2) (zero2 : F2)
    (inputs : NovaAugmentedCircuitInputs F1 F2 Comm2) : RelaxedR1CSInstance Comm2 F2 :=
  match inputs.U, inputs.u, inputs.T with
  | some U, some u, some T => fold_inst U u T
  | _, _, _ => RelaxedR1CSInstance.default comm_zero2 zero2 2

/-- Modelled from the spec: the running instance the secondary augmented
circuit hashes into its second output.  On a step input it is the in-circuit
fold of the primary side; at the base it is the incoming primary instance
lifted to a relaxed one (the secondary side's base incorporates the fresh
primary base instance, which is why `new` sets `r_U_primary` to exactly that
lift). -/
def secondaryFoldedU
    (fold_inst : RelaxedR1CSInstance Comm1 F1 → R1CSInstance Comm1 F1 → Comm1 →
      RelaxedR1CSInstance Comm1 F1)
    (comm_zero1 : Comm1) (one1 : F1)
    (inputs : NovaAugmentedCircuitInputs F2 F1 Comm1) (u_in : R1CSInstance Comm1 F1) :
    RelaxedR1CSInstance Comm1 F1 :=
  match inputs.U, inputs.T with
  | some U, some T => fold_inst U u_in T
  | _, _ => RelaxedR1CSInstance.from_r1cs_instance comm_zero1 one1 u_in

/-- Modelled from the spec: the contracts sections 4.1-4.4 promise of the
external collaborators, for one pair of step circuits computing the step
functions `f1` and `f2` and public parameters of digest `d`:

* synthesis runs the user step circuit on `z_i` (on `z_0` at the base) and
  is deterministic (section 4.3);
* the extracted primary instance carries in `X[1]` the cross-field hash
  `H(params, i+1, z_0, z_{i+1}, U')` over the secondary RO constants, where
  `U'` re-enacts the secondary fold, and the pair satisfies the shape
  (sections 3, 4.1 and 4.3);
* the extracted secondary instance passes the incoming primary `X[1]`
  through as its `X[0]` and carries the primary-RO hash in `X[1]` (this is
  the "X[0] of side σ equals H(..) of the opposite side" invariant of
  section 3);
* folding satisfiable pairs succeeds, commutes with the instance-only
  `NIFS.verify` fold after decompressing `T̄`, preserves satisfiability and
  the public-I/O arity (section 4.2);
* lifting a satisfiable plain pair gives a satisfiable relaxed pair, and the
  default relaxed pair is satisfiable (section 4.1);
* reinterpreting a squeezed hash (or the truncated digest) across the curve
  cycle and back is the identity, and the field embedding of counters is
  additive (sections 2 and 4.4). -/
structure Honest (ops : Ops F1 F2 Comm1 Comm2 T1 T2 S1 S2 Content) (d : F1)
    (f1 : List F1 → List F1) (f2 : List F2 → List F2) : Prop where
  synth_primary_eq : ∀ inputs, ops.synth_primary inputs =
    some ((f1 (inputs.zi.getD inputs.z0)).map some)
  synth_secondary_eq : ∀ inputs, ops.synth_secondary inputs =
    some ((f2 (inputs.zi.getD inputs.z0)).map some)
  extract_primary_spec : ∀ inputs, ∃ u w x0,
    ops.extract_primary inputs = some (u, w) ∧
    u.X = [x0,
      ops.sab2 (ops.h_sec (ops.sab2 inputs.params) (ops.add1 inputs.i (ops.ofNat1 1))
        inputs.z0 (f1 (inputs.zi.getD inputs.z0))
        (primaryFoldedU ops.fold_inst_secondary ops.comm_zero2 (ops.ofNat2 0) inputs))] ∧
    ops.is_sat_primary u w = true
  extract_secondary_spec : ∀ inputs u_in, inputs.u = some u_in → ∃ u w,
    ops.extract_secondary inputs = some (u, w) ∧
    u.X = [ops.sab1 (u_in.X.getD 1 (ops.ofNat1 0)),
      ops.sab1 (ops.h_prim (ops.sab1 inputs.params) (ops.add2 inputs.i (ops.ofNat2 1))
        inputs.z0 (f2 (inputs.zi.getD inputs.z0))
        (secondaryFoldedU ops.fold_inst_primary ops.comm_zero1 (ops.ofNat1 1) inputs u_in))] ∧
    ops.is_sat_secondary u w = true
  fold_secondary_progress : ∀ U W u w, ops.is_sat_relaxed_secondary U W = true →
    ops.is_sat_secondary u w = true → ∃ r, ops.fold_secondary U W u w = some r
  fold_secondary_compat : ∀ U W u w U2 W2 cT, ops.fold_secondary U W u w = some (U2, W2, cT) →
    ∃ T, ops.decompress2 cT = some T ∧ ops.fold_inst_secondary U u T = U2
  fold_secondary_sat : ∀ U W u w U2 W2 cT, ops.fold_secondary U W u w = some (U2, W2, cT) →
    ops.is_sat_relaxed_secondary U W = true → ops.is_sat_secondary u w = true →
    ops.is_sat_relaxed_secondary U2 W2 = true
  fold_secondary_len : ∀ U W u w U2 W2 cT, ops.fold_secondary U W u w = some (U2, W2, cT) →
    U2.X.length = U.X.length
  fold_primary_progress : ∀ U W u w, ops.is_sat_relaxed_primary U W = true →
    ops.is_sat_primary u w = true → ∃ r, ops.fold_primary U W u w = some r
  fold_primary_compat : ∀ U W u w U1 W1 cT, ops.fold_primary U W u w = some (U1, W1, cT) →
    ∃ T, ops.decompress1 cT = some T ∧ ops.fold_inst_primary U u T = U1
  fold_primary_sat : ∀ U W u w U1 W1 cT, ops.fold_primary U W u w = some (U1, W1, cT) →
    ops.is_sat_relaxed_primary U W = true → ops.is_sat_primary u w = true →
    ops.is_sat_relaxed_primary U1 W1 = true
  fold_primary_len : ∀ U W u w U1 W1 cT, ops.fold_primary U W u w = some (U1, W1, cT) →
    U1.X.length = U.X.length
  lift_sat_primary : ∀ u w, ops.is_sat_primary u w = true →
    ops.is_sat_relaxed_primary
      (RelaxedR1CSInstance.from_r1cs_instance ops.comm_zero1 (ops.ofNat1 1) u)
      (RelaxedR1CSWitness.from_r1cs_witness ops.num_cons_primary (ops.ofNat1 0) w) = true
  default_sat_secondary : ops.is_sat_relaxed_secondary
    (RelaxedR1CSInstance.default ops.comm_zero2 (ops.ofNat2 0) 2)
    (RelaxedR1CSWitness.default ops.num_cons_secondary ops.num_vars_secondary
      (ops.ofNat2 0)) = true
  rt_hsec : ∀ a b c e U, ops.sab1 (ops.sab2 (ops.h_sec a b c e U)) = ops.h_sec a b c e U
  rt_hprim : ∀ a b c e U, ops.sab2 (ops.sab1 (ops.h_prim a b c e U)) = ops.h_prim a b c e U
  rt_digest : ops.sab2 (ops.sab1 d) = d
  add1_ofNat : ∀ k : Nat, ops.add1 (ops.ofNat1 k) (ops.ofNat1 1) = ops.ofNat1 (k + 1)
  add2_ofNat : ∀ k : Nat, ops.add2 (ops.ofNat2 k) (ops.ofNat2 1) = ops.ofNat2 (k + 1)

/-- The inductive invariant the driver maintains (spec section 3,
"Invariants"), at recursion depth `lvl`: the stored initial inputs are the
caller's, the stored `z_i`s are the `lvl`-fold direct iterates, the pending
secondary instance's two public outputs are the cross-field hashes of depth
`lvl` over the current running instances, all stored pairs satisfy their
shapes, and the running instances have public-I/O arity 2.  After `new` it
holds at depth 1 (with the counter still 0); after the `k`-th `prove_step`
it holds at depth `k` with counter `k`. -/
structure CoreInv (ops : Ops F1 F2 Comm1 Comm2 T1 T2 S1 S2 Content) (d : F1)
    (f1 : List F1 → List F1) (f2 : List F2 → List F2)
    (z0p : List F1) (z0s : List F2) (lvl : Nat)
    (s : RecursiveSNARK F1 F2 Comm1 Comm2) : Prop where
  z0p_eq : s.z0_primary = z0p
  z0s_eq : s.z0_secondary = z0s
  zi_p_eq : s.zi_primary = iterF f1 lvl z0p
  zi_s_eq : s.zi_secondary = iterF f2 lvl z0s
  lu_X : s.l_u_secondary.X =
    [ops.h_sec d (ops.ofNat1 lvl) z0p s.zi_primary s.r_U_secondary,
     ops.sab1 (ops.h_prim (ops.sab1 d) (ops.ofNat2 lvl) z0s s.zi_secondary s.r_U_primary)]
  sat_rp : ops.is_sat_relaxed_primary s.r_U_primary s.r_W_primary = true
  sat_rs : ops.is_sat_relaxed_secondary s.r_U_secondary s.r_W_secondary = true
  sat_ls : ops.is_sat_secondary s.l_u_secondary s.l_w_secondary = true
  len_rp : s.r_U_primary.X.length = 2
  len_rs : s.r_U_secondary.X.length = 2

end Contracts

/-! ## A concrete instantiation

All abstract types are `Nat`; the conversions across the (toy) curve cycle
are the identity; the step circuits mirror the library's own tests
(`TrivialCircuit` on the primary side, `CubicCircuit` computing
`y = x^3 + x + 5` on the secondary side).  It exists to evaluate the
theorems on concrete inputs; it is not a translation of any source
function. -/

/-- The step function of `TrivialCircuit` (its `synthesize` returns `z`). -/
def toyF1 (z : List Nat) : List Nat := z

/-- The step function of the tests' `CubicCircuit`: `z ↦ [z0^3 + z0 + 5]`. -/
def toyF2 (z : List Nat) : List Nat :=
  [z.getD 0 0 * z.getD 0 0 * z.getD 0 0 + z.getD 0 0 + 5]

/-- A toy instance-only fold on the primary side. -/
def toyFoldInst1 (U : RelaxedR1CSInstance Nat Nat) (u : R1CSInstance Nat Nat)
    (T : Nat) : RelaxedR1CSInstance Nat Nat :=
  { comm_W := U.comm_W + u.comm_W + T, comm_E := U.comm_E, u := U.u + 1, X := U.X }

/-- A toy instance-only fold on the secondary side. -/
def toyFoldInst2 (U : RelaxedR1CSInstance Nat Nat) (u : R1CSInstance Nat Nat)
    (T : Nat) : RelaxedR1CSInstance Nat Nat :=
  { comm_W := U.comm_W + u.comm_W + T, comm_E := U.comm_E, u := U.u + 1, X := U.X }

/-- A toy secondary-RO hash. -/
def toyHsec (d i : Nat) (z0 zi : List Nat) (U : RelaxedR1CSInstance Nat Nat) : Nat :=
  d + i + z0.sum + zi.sum + U.u

/-- A toy primary-RO hash. -/
def toyHprim (d i : Nat) (z0 zi : List Nat) (U : RelaxedR1CSInstance Nat Nat) : Nat :=
  1 + d + i + z0.sum + zi.sum + U.u

/-- The toy operation record satisfying `Honest toyOps 0 toyF1 toyF2`. -/
def toyOps : Ops Nat Nat Nat Nat Nat Nat Nat Nat Nat :=
  { digest_of := fun c => c
    sab1 := id
    sab2 := id
    ofNat1 := id
    ofNat2 := id
    add1 := Nat.add
    add2 := Nat.add
    h_sec := toyHsec
    h_prim := toyHprim
    synth_primary := fun inputs => some ((toyF1 (inputs.zi.getD inputs.z0)).map some)
    extract_primary := fun inputs => some (⟨0, [0,
      toyHsec inputs.params (inputs.i + 1) inputs.z0 (toyF1 (inputs.zi.getD inputs.z0))
        (primaryFoldedU toyFoldInst2 0 0 inputs)]⟩, ⟨[]⟩)
    synth_secondary := fun inputs => some ((toyF2 (inputs.zi.getD inputs.z0)).map some)
    extract_secondary := fun inputs => some (⟨0, [
      (inputs.u.getD ⟨0, []⟩).X.getD 1 0,
      toyHprim inputs.params (inputs.i + 1) inputs.z0 (toyF2 (inputs.zi.getD inputs.z0))
        (secondaryFoldedU toyFoldInst1 0 1 inputs (inputs.u.getD ⟨0, []⟩))]⟩, ⟨[]⟩)
    fold_primary := fun U W u _ => some (toyFoldInst1 U u 5, W, 5)
    fold_secondary := fun U W u _ => some (toyFoldInst2 U u 3, W, 3)
    nifs_prove_secondary := fun U W u _ => .ok (toyFoldInst2 U u 3, W, 3)
    fold_inst_primary := toyFoldInst1
    fold_inst_secondary := toyFoldInst2
    decompress1 := fun T => some T
    decompress2 := fun T => some T
    is_sat_primary := fun _ _ => true
    is_sat_secondary := fun _ _ => true
    is_sat_relaxed_primary := fun _ _ => true
    is_sat_relaxed_secondary := fun _ _ => true
    comm_zero1 := 0
    comm_zero2 := 0
    num_cons_primary := 1
    num_cons_secondary := 1
    num_vars_primary := 1
    num_vars_secondary := 1
    snark_prove_primary := fun _ _ => .ok 0
    snark_prove_secondary := fun _ _ => .ok 0 }

/-- Toy public parameters: both arities 1, content 0, empty digest cell
(so the digest value is 0). -/
def toyPP : PublicParams Nat Nat :=
  { F_arity_primary := 1, F_arity_secondary := 1, content := 0, digest := none }

/-- The toy ops with a failing secondary cross-term decompression. -/
def toyOpsBadDecompress : Ops Nat Nat Nat Nat Nat Nat Nat Nat Nat :=
  { toyOps with decompress2 := fun _ => none }

/-- The toy ops with a failing primary circuit synthesis. -/
def toyOpsBadSynth : Ops Nat Nat Nat Nat Nat Nat Nat Nat Nat :=
  { toyOps with synth_primary := fun _ => none }

/-- The toy ops with a failing secondary fold. -/
def toyOpsBadFold : Ops Nat Nat Nat Nat Nat Nat Nat Nat Nat :=
  { toyOps with fold_secondary := fun _ _ _ _ => none }

/-- A concrete `RecursiveSNARK` state with step counter 1 (as produced after
`new` and one `prove_step` on `z0_primary = [1]`, `z0_secondary = [0]`),
with `l_u_secondary.X` holding the two toy hashes of depth 1. -/
def toyState : RecursiveSNARK Nat Nat Nat Nat :=
  { z0_primary := [1]
    z0_secondary := [0]
    r_W_primary := { W := [], E := [] }
    r_U_primary := { comm_W := 0, comm_E := 0, u := 1, X := [0, 0] }
    r_W_secondary := { W := [], E := [] }
    r_U_secondary := { comm_W := 0, comm_E := 0, u := 0, X := [0, 0] }
    l_w_secondary := { W := [] }
    l_u_secondary := { comm_W := 0, X := [3, 8] }
    i := 1
    zi_primary := [1]
    zi_secondary := [5] }

/-- The state `toyState` is left in when `prove_step` with
`toyOpsBadDecompress` returns its error: the secondary running pair has
already been folded in place. -/
def toyStateAfterFold : RecursiveSNARK Nat Nat Nat Nat :=
  { toyState with r_U_secondary := { comm_W := 3, comm_E := 0, u := 1, X := [0, 0] } }

/-! ## Helper lemmas -/

theorem collectValues_map_some {F : Type} (l : List F) :
    collectValues (l.map some) = some l := by
  induction l with
  | nil => rfl
  | cons x xs ih => simp [collectValues, ih]

theorem toyOps_honest : Honest toyOps 0 toyF1 toyF2 := by
  constructor
  case synth_primary_eq => intro inputs; rfl
  case synth_secondary_eq => intro inputs; rfl
  case extract_primary_spec => intro inputs; exact ⟨_, ⟨[]⟩, 0, rfl, rfl, rfl⟩
  case extract_secondary_spec =>
    intro inputs u_in h
    refine ⟨_, ⟨[]⟩, rfl, ?_, rfl⟩
    simp [toyOps, h]
  case fold_secondary_progress => intro U W u w _ _; exact ⟨_, rfl⟩
  case fold_secondary_compat =>
    intro U W u w U2 W2 cT h
    simp only [toyOps, Option.some.injEq, Prod.mk.injEq] at h
    obtain ⟨h1, h2, h3⟩ := h
    exact ⟨cT, rfl, by rw [← h3]; exact h1⟩
  case fold_secondary_sat => intro U W u w U2 W2 cT _ _ _; rfl
  case fold_secondary_len =>
    intro U W u w U2 W2 cT h
    simp only [toyOps, Option.some.injEq, Prod.mk.injEq] at h
    rw [← h.1]; rfl
  case fold_primary_progress => intro U W u w _ _; exact ⟨_, rfl⟩
  case fold_primary_compat =>
    intro U W u w U1 W1 cT h
    simp only [toyOps, Option.some.injEq, Prod.mk.injEq] at h
    obtain ⟨h1, h2, h3⟩ := h
    exact ⟨cT, rfl, by rw [← h3]; exact h1⟩
  case fold_primary_sat => intro U W u w U1 W1 cT _ _ _; rfl
  case fold_primary_len =>
    intro U W u w U1 W1 cT h
    simp only [toyOps, Option.some.injEq, Prod.mk.injEq] at h
    rw [← h.1]; rfl
  case lift_sat_primary => intro u w _; rfl
  case default_sat_secondary => rfl
  case rt_hsec => intro a b c e U; rfl
  case rt_hprim => intro a b c e U; rfl
  case rt_digest => rfl
  case add1_ofNat => intro k; rfl
  case add2_ofNat => intro k; rfl

section HonestLemmas

variable {F1 F2 Comm1 Comm2 T1 T2 S1 S2 Content : Type}
variable {ops : Ops F1 F2 Comm1 Comm2 T1 T2 S1 S2 Content}
variable {d : F1} {f1 : List F1 → List F1} {f2 : List F2 → List F2}

theorem new_honest (h : Honest ops d f1 f2) (pp : PublicParams F1 Content)
    (hd : pp.digestVal ops = d)
    (z0p : List F1) (z0s : List F2)
    (h0p : z0p.length = pp.F_arity_primary) (h0s : z0s.length = pp.F_arity_secondary)
    (h1p : (f1 z0p).length = pp.F_arity_primary)
    (h1s : (f2 z0s).length = pp.F_arity_secondary) :
    ∃ s0, RecursiveSNARK.new ops pp z0p z0s = .ok s0 ∧
      CoreInv ops d f1 f2 z0p z0s 1 s0 ∧ s0.i = 0 := by
  obtain ⟨uP, w1, x0, hep, hXp, hsat1⟩ :=
    h.extract_primary_spec ⟨ops.sab1 d, ops.ofNat1 0, z0p, none, none, none, none⟩
  obtain ⟨uS, w2, hes, hXs, hsat2⟩ :=
    h.extract_secondary_spec ⟨d, ops.ofNat2 0, z0s, none, none, some uP, none⟩ uP rfl
  have hsp := h.synth_primary_eq ⟨ops.sab1 d, ops.ofNat1 0, z0p, none, none, none, none⟩
  have hss := h.synth_secondary_eq ⟨d, ops.ofNat2 0, z0s, none, none, some uP, none⟩
  refine ⟨{ z0_primary := z0p
            z0_secondary := z0s
            r_W_primary := RelaxedR1CSWitness.from_r1cs_witness ops.num_cons_primary
              (ops.ofNat1 0) w1
            r_U_primary := RelaxedR1CSInstance.from_r1cs_instance ops.comm_zero1
              (ops.ofNat1 1) uP
            r_W_secondary := RelaxedR1CSWitness.default ops.num_cons_secondary
              ops.num_vars_secondary (ops.ofNat2 0)
            r_U_secondary := RelaxedR1CSInstance.default ops.comm_zero2 (ops.ofNat2 0) 2
            l_w_secondary := w2
            l_u_secondary := uS
            i := 0
            zi_primary := f1 z0p
            zi_secondary := f2 z0s }, ?_, ?_, rfl⟩
  · show RecursiveSNARK.new ops pp z0p z0s = _
    simp only [RecursiveSNARK.new, hd, hsp, hep, hss, hes, collectValues_map_some,
      Option.getD_none, h0p, h0s, h1p, h1s, List.length_map, ne_eq, not_true_eq_false,
      false_or, or_self, if_false, ite_false]
  · constructor
    case z0p_eq => rfl
    case z0s_eq => rfl
    case zi_p_eq => simp [iterF]
    case zi_s_eq => simp [iterF]
    case lu_X =>
      show uS.X = _
      rw [hXs, hXp]
      simp only [Option.getD_none, Option.getD_some, List.getD, List.get?, primaryFoldedU,
        secondaryFoldedU, h.rt_digest, h.add1_ofNat, h.add2_ofNat, Nat.zero_add, h.rt_hsec]
    case sat_rp => exact h.lift_sat_primary uP w1 hsat1
    case sat_rs => exact h.default_sat_secondary
    case sat_ls => exact hsat2
    case len_rp =>
      show (RelaxedR1CSInstance.from_r1cs_instance ops.comm_zero1 (ops.ofNat1 1) uP).X.length = 2
      simp [RelaxedR1CSInstance.from_r1cs_instance, hXp]
    case len_rs => simp [RelaxedR1CSInstance.default]

end HonestLemmas

section HonestStep

variable {F1 F2 Comm1 Comm2 T1 T2 S1 S2 Content : Type}
variable {ops : Ops F1 F2 Comm1 Comm2 T1 T2 S1 S2 Content}
variable {d : F1} {f1 : List F1 → List F1} {f2 : List F2 → List F2}

theorem step_honest (h : Honest ops d f1 f2) (pp : PublicParams F1 Content)
    (hd : pp.digestVal ops = d)
    {z0p : List F1} {z0s : List F2} {lvl : Nat} {s : RecursiveSNARK F1 F2 Comm1 Comm2}
    (hInv : CoreInv ops d f1 f2 z0p z0s lvl s) (hi : s.i = lvl) (hlvl : 1 ≤ lvl) :
    ∃ s', RecursiveSNARK.prove_step ops pp s = .ok s' ∧
      CoreInv ops d f1 f2 z0p z0s (lvl + 1) s' ∧ s'.i = lvl + 1 := by
  have hne0 : ¬ (s.i = 0) := by omega
  obtain ⟨⟨U2, W2, cT2⟩, hfold2⟩ :=
    h.fold_secondary_progress s.r_U_secondary s.r_W_secondary s.l_u_secondary
      s.l_w_secondary hInv.sat_rs hInv.sat_ls
  obtain ⟨Ts, hdec2, hfi2⟩ :=
    h.fold_secondary_compat _ _ _ _ _ _ _ hfold2
  obtain ⟨uPn, w1n, x0n, hep, hXp, hsat1⟩ :=
    h.extract_primary_spec ⟨ops.sab1 d, ops.ofNat1 s.i, s.z0_primary, some s.zi_primary,
      some s.r_U_secondary, some s.l_u_secondary, some Ts⟩
  have hsp := h.synth_primary_eq ⟨ops.sab1 d, ops.ofNat1 s.i, s.z0_primary,
    some s.zi_primary, some s.r_U_secondary, some s.l_u_secondary, some Ts⟩
  obtain ⟨⟨U1, W1, cT1⟩, hfold1⟩ :=
    h.fold_primary_progress s.r_U_primary s.r_W_primary uPn w1n hInv.sat_rp hsat1
  obtain ⟨Tp, hdec1, hfi1⟩ :=
    h.fold_primary_compat _ _ _ _ _ _ _ hfold1
  obtain ⟨uSn, w2n, hes, hXs, hsat2⟩ :=
    h.extract_secondary_spec ⟨d, ops.ofNat2 s.i, s.z0_secondary, some s.zi_secondary,
      some s.r_U_primary, some uPn, some Tp⟩ uPn rfl
  have hss := h.synth_secondary_eq ⟨d, ops.ofNat2 s.i, s.z0_secondary,
    some s.zi_secondary, some s.r_U_primary, some uPn, some Tp⟩
  refine ⟨{ z0_primary := s.z0_primary
            z0_secondary := s.z0_secondary
            r_W_primary := W1
            r_U_primary := U1
            r_W_secondary := W2
            r_U_secondary := U2
            l_w_secondary := w2n
            l_u_secondary := uSn
            i := s.i + 1
            zi_primary := f1 s.zi_primary
            zi_secondary := f2 s.zi_secondary }, ?_, ?_, ?_⟩
  · show RecursiveSNARK.prove_step ops pp s = _
    simp only [RecursiveSNARK.prove_step, hne0, hd, hfold2, hdec2, hsp, hep, hfold1,
      hdec1, hss, hes, collectValues_map_some, Option.getD_some, ite_false, if_false]
  · constructor
    case z0p_eq => exact hInv.z0p_eq
    case z0s_eq => exact hInv.z0s_eq
    case zi_p_eq => rw [hInv.zi_p_eq]; simp [iterF]
    case zi_s_eq => rw [hInv.zi_s_eq]; simp [iterF]
    case lu_X =>
      show uSn.X = _
      rw [hXs, hXp]
      simp only [Option.getD_some, List.getD, List.get?, primaryFoldedU, secondaryFoldedU,
        h.rt_digest, hi, h.add1_ofNat, h.add2_ofNat, h.rt_hsec, hfi1, hfi2, hInv.z0p_eq,
        hInv.z0s_eq]
    case sat_rp => exact h.fold_primary_sat _ _ _ _ _ _ _ hfold1 hInv.sat_rp hsat1
    case sat_rs => exact h.fold_secondary_sat _ _ _ _ _ _ _ hfold2 hInv.sat_rs hInv.sat_ls
    case sat_ls => exact hsat2
    case len_rp => rw [h.fold_primary_len _ _ _ _ _ _ _ hfold1]; exact hInv.len_rp
    case len_rs => rw [h.fold_secondary_len _ _ _ _ _ _ _ hfold2]; exact hInv.len_rs
  · show s.i + 1 = lvl + 1
    omega

end HonestStep

section HonestVerify

variable {F1 F2 Comm1 Comm2 T1 T2 S1 S2 Content : Type}
variable [DecidableEq F1] [DecidableEq F2]
variable {ops : Ops F1 F2 Comm1 Comm2 T1 T2 S1 S2 Content}
variable {d : F1} {f1 : List F1 → List F1} {f2 : List F2 → List F2}

theorem verify_honest (h : Honest ops d f1 f2) (pp : PublicParams F1 Content)
    (hd : pp.digestVal ops = d)
    {z0p : List F1} {z0s : List F2} {k : Nat} {s : RecursiveSNARK F1 F2 Comm1 Comm2}
    (hInv : CoreInv ops d f1 f2 z0p z0s k s) (hik : s.i = k) (hk : 1 ≤ k) :
    RecursiveSNARK.verify ops pp k z0p z0s s =
      .ok (iterF f1 k z0p, iterF f2 k z0s) := by
  have hk0 : ¬ (k = 0) := by omega
  simp only [RecursiveSNARK.verify, hd, hik, hInv.z0p_eq, hInv.z0s_eq, hInv.lu_X,
    hInv.sat_rp, hInv.sat_rs, hInv.sat_ls, hInv.zi_p_eq, hInv.zi_s_eq, hInv.len_rp,
    hInv.len_rs, hk0, List.length_cons, List.length_nil, List.getD, List.get?,
    Option.getD_some, h.rt_hprim, ne_eq, not_true_eq_false, not_false_eq_true,
    or_self, false_or, or_false, if_false, ite_false, if_true, ite_true,
    Bool.true_eq_false]

omit [DecidableEq F1] [DecidableEq F2] in
theorem proveSteps_honest (h : Honest ops d f1 f2) (pp : PublicParams F1 Content)
    (hd : pp.digestVal ops = d)
    {z0p : List F1} {z0s : List F2} (j : Nat) :
    ∀ (lvl : Nat) (s : RecursiveSNARK F1 F2 Comm1 Comm2),
      CoreInv ops d f1 f2 z0p z0s lvl s → s.i = lvl → 1 ≤ lvl →
      ∃ s', RecursiveSNARK.proveSteps ops pp j s = .ok s' ∧
        CoreInv ops d f1 f2 z0p z0s (lvl + j) s' ∧ s'.i = lvl + j := by
  induction j with
  | zero => intro lvl s hInv hi _; exact ⟨s, rfl, hInv, hi⟩
  | succ n ih =>
    intro lvl s hInv hi hlvl
    obtain ⟨s1, hstep, hInv1, hi1⟩ := step_honest h pp hd hInv hi hlvl
    obtain ⟨s', hrun, hInv', hi'⟩ := ih (lvl + 1) s1 hInv1 hi1 (by omega)
    refine ⟨s', ?_, ?_, ?_⟩
    · show RecursiveSNARK.proveSteps ops pp (n + 1) s = .ok s'
      simp only [RecursiveSNARK.proveSteps, hstep, hrun]
    · have : lvl + 1 + n = lvl + (n + 1) := by omega
      rwa [this] at hInv'
    · omega

end HonestVerify

/-! ## Claim theorems -/

section Claims

variable {F1 F2 Comm1 Comm2 T1 T2 S1 S2 Content : Type}

/-- C1: for every valid public parameters (digest `d`, external collaborators
meeting the spec's contracts — `Honest`), initial inputs of the correct
arities, and every `k ≥ 1`: starting from `RecursiveSNARK::new`, after `k`
successful `prove_step` calls, `verify (pp, k, z0_primary, z0_secondary)`
returns `Ok (zk_primary, zk_secondary)` where the outputs equal the direct
`k`-fold iteration of the step functions computed by the two circuits on the
initial inputs. -/
theorem nova_C1_ivc_correctness [DecidableEq F1] [DecidableEq F2]
    (ops : Ops F1 F2 Comm1 Comm2 T1 T2 S1 S2 Content)
    (pp : PublicParams F1 Content) (d : F1)
    (f1 : List F1 → List F1) (f2 : List F2 → List F2)
    (h : Honest ops d f1 f2) (hd : pp.digestVal ops = d)
    (z0p : List F1) (z0s : List F2)
    (h0p : z0p.length = pp.F_arity_primary) (h0s : z0s.length = pp.F_arity_secondary)
    (h1p : (f1 z0p).length = pp.F_arity_primary)
    (h1s : (f2 z0s).length = pp.F_arity_secondary)
    (k : Nat) (hk : 1 ≤ k) :
    ∃ s0 sk, RecursiveSNARK.new ops pp z0p z0s = .ok s0 ∧
      RecursiveSNARK.proveSteps ops pp k s0 = .ok sk ∧
      RecursiveSNARK.verify ops pp k z0p z0s sk =
        .ok (iterF f1 k z0p, iterF f2 k z0s) := by
  obtain ⟨s0, hnew, hInv0, hi0⟩ := new_honest h pp hd z0p z0s h0p h0s h1p h1s
  have hfirst : RecursiveSNARK.prove_step ops pp s0 = .ok { s0 with i := 1 } := by
    simp [RecursiveSNARK.prove_step, hi0]
  have hInv1 : CoreInv ops d f1 f2 z0p z0s 1 { s0 with i := 1 } :=
    { z0p_eq := hInv0.z0p_eq, z0s_eq := hInv0.z0s_eq,
      zi_p_eq := hInv0.zi_p_eq, zi_s_eq := hInv0.zi_s_eq, lu_X := hInv0.lu_X,
      sat_rp := hInv0.sat_rp, sat_rs := hInv0.sat_rs, sat_ls := hInv0.sat_ls,
      len_rp := hInv0.len_rp, len_rs := hInv0.len_rs }
  obtain ⟨j, rfl⟩ : ∃ j, k = j + 1 := ⟨k - 1, by omega⟩
  obtain ⟨sk, hsteps, hInvk, hik⟩ :=
    proveSteps_honest h pp hd j 1 { s0 with i := 1 } hInv1 rfl (by omega)
  have hInvk' : CoreInv ops d f1 f2 z0p z0s (j + 1) sk := by
    have : 1 + j = j + 1 := by omega
    rwa [this] at hInvk
  have hik' : sk.i = j + 1 := by omega
  refine ⟨s0, sk, hnew, ?_, ?_⟩
  · show RecursiveSNARK.proveSteps ops pp (j + 1) s0 = .ok sk
    simp only [RecursiveSNARK.proveSteps, hfirst, hsteps]
  · exact verify_honest h pp hd hInvk' hik' (by omega)

/-- Witness for C1 at the concrete toy instantiation: trivial primary
circuit on `z0 = [1]`, cubic secondary circuit on `z0 = [0]`, three steps;
the verified outputs are `[1]` and `[2460515] = [((0^3+0+5)^3+..)^3+..]`. -/
theorem nova_C1_witness :
    ∃ s0 sk, RecursiveSNARK.new toyOps toyPP [1] [0] = .ok s0 ∧
      RecursiveSNARK.proveSteps toyOps toyPP 3 s0 = .ok sk ∧
      RecursiveSNARK.verify toyOps toyPP 3 [1] [0] sk = .ok ([1], [2460515]) := by
  have h := nova_C1_ivc_correctness toyOps toyPP 0 toyF1 toyF2 toyOps_honest rfl
    [1] [0] rfl rfl rfl rfl 3 (by omega)
  have e1 : iterF toyF1 3 [1] = [1] := rfl
  have e2 : iterF toyF2 3 [0] = [2460515] := rfl
  rw [e1, e2] at h
  exact h

/-- C5: on a `RecursiveSNARK` with step counter 0, `prove_step` returns
`Ok(())`, sets the counter to 1 and leaves every other field unchanged (the
constructor already ran the base circuits); consequently, on a newly
constructed `RecursiveSNARK` with honest collaborators, one `prove_step`
followed by `verify` with `num_steps = 1` succeeds and returns the one-step
iterates. -/
theorem nova_C5_first_step [DecidableEq F1] [DecidableEq F2] :
    (∀ (ops : Ops F1 F2 Comm1 Comm2 T1 T2 S1 S2 Content)
       (pp : PublicParams F1 Content) (s : RecursiveSNARK F1 F2 Comm1 Comm2),
      s.i = 0 → RecursiveSNARK.prove_step ops pp s = .ok { s with i := 1 }) ∧
    (∀ (ops : Ops F1 F2 Comm1 Comm2 T1 T2 S1 S2 Content)
       (pp : PublicParams F1 Content) (d : F1)
       (f1 : List F1 → List F1) (f2 : List F2 → List F2),
      Honest ops d f1 f2 → pp.digestVal ops = d →
      ∀ (z0p : List F1) (z0s : List F2),
        z0p.length = pp.F_arity_primary → z0s.length = pp.F_arity_secondary →
        (f1 z0p).length = pp.F_arity_primary → (f2 z0s).length = pp.F_arity_secondary →
        ∃ s0, RecursiveSNARK.new ops pp z0p z0s = .ok s0 ∧
          RecursiveSNARK.prove_step ops pp s0 = .ok { s0 with i := 1 } ∧
          RecursiveSNARK.verify ops pp 1 z0p z0s { s0 with i := 1 } =
            .ok (f1 z0p, f2 z0s)) := by
  constructor
  · intro ops pp s hi
    simp [RecursiveSNARK.prove_step, hi]
  · intro ops pp d f1 f2 h hd z0p z0s h0p h0s h1p h1s
    obtain ⟨s0, hnew, hInv0, hi0⟩ := new_honest h pp hd z0p z0s h0p h0s h1p h1s
    have hInv1 : CoreInv ops d f1 f2 z0p z0s 1 { s0 with i := 1 } :=
      { z0p_eq := hInv0.z0p_eq, z0s_eq := hInv0.z0s_eq,
        zi_p_eq := hInv0.zi_p_eq, zi_s_eq := hInv0.zi_s_eq, lu_X := hInv0.lu_X,
        sat_rp := hInv0.sat_rp, sat_rs := hInv0.sat_rs, sat_ls := hInv0.sat_ls,
        len_rp := hInv0.len_rp, len_rs := hInv0.len_rs }
    refine ⟨s0, hnew, by simp [RecursiveSNARK.prove_step, hi0], ?_⟩
    have hv := verify_honest h pp hd hInv1 rfl (by omega)
    simpa [iterF] using hv

/-- Witness for C5 at the toy instantiation: after `new` and one
`prove_step`, `verify` with `num_steps = 1` returns the one-step iterates
`([1], [5])`. -/
theorem nova_C5_witness :
    ∃ s0, RecursiveSNARK.new toyOps toyPP [1] [0] = .ok s0 ∧
      RecursiveSNARK.prove_step toyOps toyPP s0 = .ok { s0 with i := 1 } ∧
      RecursiveSNARK.verify toyOps toyPP 1 [1] [0] { s0 with i := 1 } =
        .ok ([1], [5]) := by
  have h := (nova_C5_first_step).2 toyOps toyPP 0 toyF1 toyF2 toyOps_honest rfl
    [1] [0] rfl rfl rfl rfl
  have e2 : toyF2 [0] = [5] := rfl
  rw [show toyF1 [1] = [1] from rfl, e2] at h
  exact h

end Claims

section Claims2

variable {F1 F2 Comm1 Comm2 T1 T2 S1 S2 Content : Type}

/-- C2: `verify` returns `Err(ProofVerifyError)` whenever `num_steps = 0`,
or the stored counter differs from `num_steps`, or the supplied initial
inputs differ from the stored ones, or any of `l_u_secondary.X`,
`r_U_primary.X`, `r_U_secondary.X` has length other than 2.  The theorem
quantifies over every operation record `ops`, so the rejection is
independent of the hash and satisfiability operations: the checks happen
before any hash or satisfiability computation. -/
theorem nova_C2_verify_rejects [DecidableEq F1] [DecidableEq F2]
    (ops : Ops F1 F2 Comm1 Comm2 T1 T2 S1 S2 Content)
    (pp : PublicParams F1 Content) (num_steps : Nat)
    (z0p : List F1) (z0s : List F2) (s : RecursiveSNARK F1 F2 Comm1 Comm2)
    (hrej : num_steps = 0 ∨ s.i ≠ num_steps ∨
      s.z0_primary ≠ z0p ∨ s.z0_secondary ≠ z0s ∨
      s.l_u_secondary.X.length ≠ 2 ∨ s.r_U_primary.X.length ≠ 2 ∨
      s.r_U_secondary.X.length ≠ 2) :
    RecursiveSNARK.verify ops pp num_steps z0p z0s s = .error .ProofVerifyError := by
  simp only [RecursiveSNARK.verify]
  rw [if_pos (by tauto)]

/-- Witness for C2: `verify` with `num_steps = 0` rejects on the toy
state. -/
theorem nova_C2_witness :
    RecursiveSNARK.verify toyOps toyPP 0 [1] [0] toyState =
      .error .ProofVerifyError :=
  nova_C2_verify_rejects toyOps toyPP 0 [1] [0] toyState (Or.inl rfl)

/-- C7: `RecursiveSNARK::new` returns `Err(InvalidInitialInputLength)`
whenever an initial input's length differs from the corresponding arity in
the public parameters.  The theorem quantifies over every operation record,
so the rejection precedes any circuit synthesis or other work, and no state
is created. -/
theorem nova_C7_new_arity_check
    (ops : Ops F1 F2 Comm1 Comm2 T1 T2 S1 S2 Content)
    (pp : PublicParams F1 Content) (z0p : List F1) (z0s : List F2)
    (h : z0p.length ≠ pp.F_arity_primary ∨ z0s.length ≠ pp.F_arity_secondary) :
    RecursiveSNARK.new ops pp z0p z0s = .err .InvalidInitialInputLength := by
  simp only [RecursiveSNARK.new]
  rw [if_pos h]

/-- Witness for C7: an empty primary input against arity 1. -/
theorem nova_C7_witness :
    RecursiveSNARK.new toyOps toyPP [] [0] = .err .InvalidInitialInputLength :=
  nova_C7_new_arity_check toyOps toyPP [] [0] (Or.inl (by decide))

/-- C3: when the reject conditions do not trigger, `verify` returns
`Ok (zi_primary, zi_secondary)` if and only if the hash recomputed over the
secondary RO constants equals `l_u_secondary.X[0]`, the hash recomputed over
the primary RO constants equals `l_u_secondary.X[1]` reinterpreted via
`scalar_as_base`, `is_sat_relaxed` holds of both running pairs and `is_sat`
holds of the pending plain secondary pair; and a hash mismatch yields
`Err(ProofVerifyError)`. -/
theorem nova_C3_verify_characterization [DecidableEq F1] [DecidableEq F2]
    (ops : Ops F1 F2 Comm1 Comm2 T1 T2 S1 S2 Content)
    (pp : PublicParams F1 Content) (num_steps : Nat)
    (z0p : List F1) (z0s : List F2) (s : RecursiveSNARK F1 F2 Comm1 Comm2)
    (h0 : num_steps ≠ 0) (h1 : s.i = num_steps)
    (h2 : s.z0_primary = z0p) (h3 : s.z0_secondary = z0s)
    (h4 : s.l_u_secondary.X.length = 2) (h5 : s.r_U_primary.X.length = 2)
    (h6 : s.r_U_secondary.X.length = 2) :
    (RecursiveSNARK.verify ops pp num_steps z0p z0s s =
        .ok (s.zi_primary, s.zi_secondary) ↔
      (ops.h_sec (pp.digestVal ops) (ops.ofNat1 num_steps) z0p s.zi_primary
          s.r_U_secondary = s.l_u_secondary.X.getD 0 (ops.ofNat2 0) ∧
       ops.h_prim (ops.sab1 (pp.digestVal ops)) (ops.ofNat2 num_steps) z0s
          s.zi_secondary s.r_U_primary =
            ops.sab2 (s.l_u_secondary.X.getD 1 (ops.ofNat2 0)) ∧
       ops.is_sat_relaxed_primary s.r_U_primary s.r_W_primary = true ∧
       ops.is_sat_relaxed_secondary s.r_U_secondary s.r_W_secondary = true ∧
       ops.is_sat_secondary s.l_u_secondary s.l_w_secondary = true)) ∧
    ((ops.h_sec (pp.digestVal ops) (ops.ofNat1 num_steps) z0p s.zi_primary
        s.r_U_secondary ≠ s.l_u_secondary.X.getD 0 (ops.ofNat2 0) ∨
      ops.h_prim (ops.sab1 (pp.digestVal ops)) (ops.ofNat2 num_steps) z0s
        s.zi_secondary s.r_U_primary ≠
          ops.sab2 (s.l_u_secondary.X.getD 1 (ops.ofNat2 0))) →
      RecursiveSNARK.verify ops pp num_steps z0p z0s s =
        .error .ProofVerifyError) := by
  have hver : RecursiveSNARK.verify ops pp num_steps z0p z0s s =
      (if ops.h_sec (pp.digestVal ops) (ops.ofNat1 num_steps) z0p s.zi_primary
            s.r_U_secondary ≠ s.l_u_secondary.X.getD 0 (ops.ofNat2 0) ∨
          ops.h_prim (ops.sab1 (pp.digestVal ops)) (ops.ofNat2 num_steps) z0s
            s.zi_secondary s.r_U_primary ≠
              ops.sab2 (s.l_u_secondary.X.getD 1 (ops.ofNat2 0)) then
        .error .ProofVerifyError
      else if ops.is_sat_relaxed_primary s.r_U_primary s.r_W_primary = false then
        .error .UnSat
      else if ops.is_sat_relaxed_secondary s.r_U_secondary s.r_W_secondary = false then
        .error .UnSat
      else if ops.is_sat_secondary s.l_u_secondary s.l_w_secondary = false then
        .error .UnSat
      else .ok (s.zi_primary, s.zi_secondary)) := by
    simp only [RecursiveSNARK.verify]
    rw [if_neg (by simp [h0, h1, h2, h3, h4, h5, h6])]
  constructor
  · rw [hver]
    split_ifs with hh hsp hss hsl
    · constructor
      · intro hc; exact absurd hc (by simp)
      · rintro ⟨c1, c2, _⟩; rcases hh with hh | hh <;> exact absurd (by assumption) hh
    · constructor
      · intro hc; exact absurd hc (by simp)
      · rintro ⟨_, _, c3, _, _⟩; rw [c3] at hsp; exact absurd hsp (by simp)
    · constructor
      · intro hc; exact absurd hc (by simp)
      · rintro ⟨_, _, _, c4, _⟩; rw [c4] at hss; exact absurd hss (by simp)
    · constructor
      · intro hc; exact absurd hc (by simp)
      · rintro ⟨_, _, _, _, c5⟩; rw [c5] at hsl; exact absurd hsl (by simp)
    · rw [not_or, not_not, not_not] at hh
      refine iff_of_true rfl ⟨hh.1, hh.2, ?_, ?_, ?_⟩
      · exact Bool.eq_true_of_not_eq_false hsp
      · exact Bool.eq_true_of_not_eq_false hss
      · exact Bool.eq_true_of_not_eq_false hsl
  · intro hmm
    rw [hver, if_pos hmm]

/-- Witness for C3: on `toyState` (whose `X` entries are the toy hashes of
depth 1) the characterization instantiates, and both directions produce the
concrete `Ok ([1], [5])`. -/
theorem nova_C3_witness :
    RecursiveSNARK.verify toyOps toyPP 1 [1] [0] toyState = .ok ([1], [5]) := by
  have h := (nova_C3_verify_characterization toyOps toyPP 1 [1] [0] toyState
    (by decide) rfl rfl rfl rfl rfl rfl).1
  exact h.mpr (by decide)

end Claims2

section Claims3

variable {F1 F2 Comm1 Comm2 T1 T2 S1 S2 Content : Type}

/-- Counterexample to C4: with a secondary cross-term decompression that
fails, `prove_step` on a state with counter 1 returns
`Err(InvalidCommitment)` — but the secondary running pair has already been
folded in place by `NIFS::prove_mut` (lib.rs line 544), so the
`RecursiveSNARK` is not left in its pre-call state: `r_U_secondary` changed
from `(0, 0, 0, [0,0])` to `(3, 0, 1, [0,0])`. -/
theorem nova_C4_counterexample :
    RecursiveSNARK.prove_step toyOpsBadDecompress toyPP toyState =
      .err .InvalidCommitment toyStateAfterFold ∧
    toyStateAfterFold ≠ toyState ∧
    toyStateAfterFold.r_U_secondary ≠ toyState.r_U_secondary := by
  refine ⟨?_, by decide, by decide⟩
  rfl

/-- C4 (amended): if `prove_step` returns an error, the step counter, the
initial inputs, `zi_secondary`, `l_u_secondary` and `l_w_secondary` are
unchanged — but the running pairs (`r_U_primary`/`r_W_primary`,
`r_U_secondary`/`r_W_secondary`) and `zi_primary` may already have been
updated in place when the error is returned; only a fully successful call
advances all fields. -/
theorem nova_C4_error_frame
    (ops : Ops F1 F2 Comm1 Comm2 T1 T2 S1 S2 Content)
    (pp : PublicParams F1 Content) (s s' : RecursiveSNARK F1 F2 Comm1 Comm2)
    (e : NovaError)
    (h : RecursiveSNARK.prove_step ops pp s = .err e s') :
    s'.i = s.i ∧ s'.z0_primary = s.z0_primary ∧ s'.z0_secondary = s.z0_secondary ∧
    s'.zi_secondary = s.zi_secondary ∧ s'.l_u_secondary = s.l_u_secondary ∧
    s'.l_w_secondary = s.l_w_secondary := by
  simp only [RecursiveSNARK.prove_step] at h
  repeat' split at h
  all_goals (try (cases h))
  all_goals exact ⟨rfl, rfl, rfl, rfl, rfl, rfl⟩

/-- Witness for the amended C4 at the counterexample input: the error
return leaves counter, `zi_secondary` and the pending secondary pair
unchanged. -/
theorem nova_C4_witness :
    toyStateAfterFold.i = toyState.i ∧
    toyStateAfterFold.z0_primary = toyState.z0_primary ∧
    toyStateAfterFold.z0_secondary = toyState.z0_secondary ∧
    toyStateAfterFold.zi_secondary = toyState.zi_secondary ∧
    toyStateAfterFold.l_u_secondary = toyState.l_u_secondary ∧
    toyStateAfterFold.l_w_secondary = toyState.l_w_secondary :=
  nova_C4_error_frame toyOpsBadDecompress toyPP toyState toyStateAfterFold
    .InvalidCommitment rfl

/-- Counterexample to C6: a circuit-synthesis failure inside
`RecursiveSNARK::new` is not propagated as a returned `NovaError`: the code
calls `.map_err(|_| NovaError::SynthesisError).expect("Nova error
synthesis")` (lib.rs lines 387-390), which panics — here the `abort`
outcome, which is neither an `ok` nor an `err` return. -/
theorem nova_C6_counterexample :
    RecursiveSNARK.new toyOpsBadSynth toyPP [1] [0] = .abort ∧
    (∀ e : NovaError, (NewOutcome.abort : NewOutcome Nat Nat Nat Nat) ≠ .err e) ∧
    (∀ s, (NewOutcome.abort : NewOutcome Nat Nat Nat Nat) ≠ .ok s) := by
  refine ⟨rfl, ?_, ?_⟩ <;> intro x hx <;> cases hx

/-- C6 (amended): the errors `prove_step` does return are always one of
`SynthesisError`, `UnSat`, `InvalidCommitment`, and the only error `new`
returns is `InvalidInitialInputLength`; however a fold failure (and likewise
any synthesis, extraction or value-collection failure inside `new`, and the
primary extraction failure inside `prove_step`) aborts through `expect`
instead of returning, so neither operation is total into `Result`. -/
theorem nova_C6_error_kinds :
    (∀ (ops : Ops F1 F2 Comm1 Comm2 T1 T2 S1 S2 Content)
       (pp : PublicParams F1 Content) (s s' : RecursiveSNARK F1 F2 Comm1 Comm2)
       (e : NovaError), RecursiveSNARK.prove_step ops pp s = .err e s' →
        e = .SynthesisError ∨ e = .UnSat ∨ e = .InvalidCommitment) ∧
    (∀ (ops : Ops F1 F2 Comm1 Comm2 T1 T2 S1 S2 Content)
       (pp : PublicParams F1 Content) (z0p : List F1) (z0s : List F2)
       (e : NovaError), RecursiveSNARK.new ops pp z0p z0s = .err e →
        e = .InvalidInitialInputLength) ∧
    (∀ (ops : Ops F1 F2 Comm1 Comm2 T1 T2 S1 S2 Content)
       (pp : PublicParams F1 Content) (s : RecursiveSNARK F1 F2 Comm1 Comm2),
      s.i ≠ 0 →
      ops.fold_secondary s.r_U_secondary s.r_W_secondary s.l_u_secondary
        s.l_w_secondary = none →
      RecursiveSNARK.prove_step ops pp s = .abort) := by
  refine ⟨?_, ?_, ?_⟩
  · intro ops pp s s' e h
    simp only [RecursiveSNARK.prove_step] at h
    repeat' split at h
    all_goals (try (cases h))
    all_goals simp
  · intro ops pp z0p z0s e h
    simp only [RecursiveSNARK.new] at h
    repeat' split at h
    all_goals (try (cases h))
    all_goals rfl
  · intro ops pp s hi hfold
    simp [RecursiveSNARK.prove_step, hi, hfold]

/-- Witness for the amended C6: a failing secondary fold on the toy state
aborts. -/
theorem nova_C6_witness :
    RecursiveSNARK.prove_step toyOpsBadFold toyPP toyState = .abort :=
  (@nova_C6_error_kinds Nat Nat Nat Nat Nat Nat Nat Nat Nat).2.2 toyOpsBadFold toyPP
    toyState (by decide) rfl

end Claims3

section Claims4

variable {F1 F2 Comm1 Comm2 T1 T2 S1 S2 Content : Type}

/-- C8: `CompressedSNARK::prove` first folds the pending plain secondary
pair into the running secondary pair through the out-of-place `NIFS::prove`;
if the fold yields `(f_U_secondary, f_W_secondary)` with proof
`nifs_secondary`, and the primary compressing SNARK proves
`(r_U_primary, r_W_primary)` while the secondary one proves the folded pair,
then the returned `CompressedSNARK` stores the pre-fold `r_U_primary`,
`r_U_secondary` and `l_u_secondary`, the `nifs_secondary` proof, and
`zn_primary`/`zn_secondary` equal to the recursive SNARK's `zi` vectors.  A
fold error is propagated before the compressing SNARKs are consulted. -/
theorem nova_C8_compressed_prove
    (ops : Ops F1 F2 Comm1 Comm2 T1 T2 S1 S2 Content)
    (rs : RecursiveSNARK F1 F2 Comm1 Comm2) :
    (∀ fU fW nifs p1 p2,
      ops.nifs_prove_secondary rs.r_U_secondary rs.r_W_secondary rs.l_u_secondary
        rs.l_w_secondary = .ok (fU, fW, nifs) →
      ops.snark_prove_primary rs.r_U_primary rs.r_W_primary = .ok p1 →
      ops.snark_prove_secondary fU fW = .ok p2 →
      (CompressedSNARK.prove ops rs).1 = .ok
        { r_U_primary := rs.r_U_primary
          r_W_snark_primary := p1
          r_U_secondary := rs.r_U_secondary
          l_u_secondary := rs.l_u_secondary
          nifs_secondary := nifs
          f_W_snark_secondary := p2
          zn_primary := rs.zi_primary
          zn_secondary := rs.zi_secondary }) ∧
    (∀ e, ops.nifs_prove_secondary rs.r_U_secondary rs.r_W_secondary
        rs.l_u_secondary rs.l_w_secondary = .error e →
      (CompressedSNARK.prove ops rs).1 = .error e) := by
  constructor
  · intro fU fW nifs p1 p2 hfold hp1 hp2
    simp only [CompressedSNARK.prove, hfold, hp1, hp2]
  · intro e hfold
    simp only [CompressedSNARK.prove, hfold]

/-- Witness for C8 at the toy instantiation and `toyState`. -/
theorem nova_C8_witness :
    (CompressedSNARK.prove toyOps toyState).1 = .ok
      { r_U_primary := { comm_W := 0, comm_E := 0, u := 1, X := [0, 0] }
        r_W_snark_primary := 0
        r_U_secondary := { comm_W := 0, comm_E := 0, u := 0, X := [0, 0] }
        l_u_secondary := { comm_W := 0, X := [3, 8] }
        nifs_secondary := 3
        f_W_snark_secondary := 0
        zn_primary := [1]
        zn_secondary := [5] } :=
  (nova_C8_compressed_prove toyOps toyState).1
    { comm_W := 3, comm_E := 0, u := 1, X := [0, 0] } { W := [], E := [] } 3 0 0
    rfl rfl rfl

/-- C9: `PublicParams::setup` is deterministic in its digest — two
parameters built by `setup` from the same inputs have equal `digest()`
values — and the digest is lazily cached: calling `digest()` on the
parameters returned by a previous `digest()` call returns the same scalar
and leaves the parameters unchanged. -/
theorem nova_C9_digest_deterministic
    (ops : Ops F1 F2 Comm1 Comm2 T1 T2 S1 S2 Content) :
    (∀ (a1 a2 : Nat) (content : Content) (pp1 pp2 : PublicParams F1 Content),
      pp1 = PublicParams.setup a1 a2 content →
      pp2 = PublicParams.setup a1 a2 content →
      (PublicParams.digestRun ops pp1).1 = (PublicParams.digestRun ops pp2).1) ∧
    (∀ pp : PublicParams F1 Content,
      PublicParams.digestRun ops (PublicParams.digestRun ops pp).2 =
        ((PublicParams.digestRun ops pp).1, (PublicParams.digestRun ops pp).2)) := by
  constructor
  · intro a1 a2 content pp1 pp2 h1 h2
    rw [h1, h2]
  · intro pp
    match hpd : pp.digest with
    | some dd => simp [PublicParams.digestRun, hpd]
    | none => simp [PublicParams.digestRun, hpd]

/-- Witness for C9: the cached digest of the toy parameters. -/
theorem nova_C9_witness :
    PublicParams.digestRun toyOps (PublicParams.digestRun toyOps toyPP).2 =
      ((PublicParams.digestRun toyOps toyPP).1,
        (PublicParams.digestRun toyOps toyPP).2) :=
  (nova_C9_digest_deterministic toyOps).2 toyPP

/-- C10: `CompressedSNARK::prove` never modifies the `RecursiveSNARK` it
compresses: the state it hands back (the immutable borrow) is the input
state whether the call succeeds or fails, so subsequent `verify` and
`prove_step` calls behave exactly as if compression had never happened. -/
theorem nova_C10_compress_frame [DecidableEq F1] [DecidableEq F2]
    (ops : Ops F1 F2 Comm1 Comm2 T1 T2 S1 S2 Content)
    (rs : RecursiveSNARK F1 F2 Comm1 Comm2) :
    (CompressedSNARK.prove ops rs).2 = rs ∧
    (∀ (pp : PublicParams F1 Content) (num_steps : Nat) (z0p : List F1)
       (z0s : List F2),
      RecursiveSNARK.verify ops pp num_steps z0p z0s (CompressedSNARK.prove ops rs).2 =
        RecursiveSNARK.verify ops pp num_steps z0p z0s rs) ∧
    (∀ pp : PublicParams F1 Content,
      RecursiveSNARK.prove_step ops pp (CompressedSNARK.prove ops rs).2 =
        RecursiveSNARK.prove_step ops pp rs) :=
  ⟨rfl, fun _ _ _ _ => rfl, fun _ => rfl⟩

/-- Witness for C10 at the toy instantiation. -/
theorem nova_C10_witness :
    (CompressedSNARK.prove toyOps toyState).2 = toyState :=
  (nova_C10_compress_frame toyOps toyState).1

end Claims4
